import Mathlib

/-!
Shallow embedding of the docker-orchestrator repository (src/index.ts and
src/temp.js), restricted to the parts the specification's claims are about:

* the DELETE /container/:id handler of src/index.ts — the deletion
  reconciler: a switch on the observed container status that drives the
  container to removal via stop/unpause/remove engine calls, with a bounded
  1-second poll loop for containers observed in status "restarting";
* the runCodeInContainer function of src/temp.js — the ephemeral execution
  runner.

The container engine is external; its behaviour is a parameter of the model:
the result of the initial inspect is an input (an error or the inspected
data), and the statuses reported by the re-inspects inside the restarting
poll loop are given by a stream `polls : Nat → String` (polls i is the
status reported by the (i+1)-th re-inspect).  The model records the engine
calls the handler issues after the initial inspect as an explicit trace;
wall-clock waiting (the 1-second setTimeout) is not observable in the
trace.  Engine calls other than the initial inspect are modelled as
succeeding, which is the regime all the sequencing claims speak about.
-/

namespace DockerOrchestrator

/-- An engine call issued by the deletion handler after the initial inspect.
`inspect` is a re-read of the container status inside the restarting poll
loop; `remove force` is container.remove, with `force := true` for the
`remove({force: true})` call of the "dead" branch. -/
inductive EngineCall where
  | inspect : EngineCall
  | stop : EngineCall
  | unpause : EngineCall
  | remove (force : Bool) : EngineCall
  deriving DecidableEq, Repr

/-- The State part of dockerode's inspect data that the handler reads. -/
structure ContainerState where
  Status : String
  deriving DecidableEq, Repr

/-- The inspect data the handler reads: data.Name and data.State.Status. -/
structure InspectData where
  Name : String
  State : ContainerState
  deriving DecidableEq, Repr

/-- The while loop of the "restarting" case of src/index.ts lines 79-85:

    let retries = 5;
    while (status === "restarting" && retries > 0) \x7b
        await new Promise(r => setTimeout(r, 1000))
        const refreshed = await container.inspect()
        status = refreshed.State.Status;
        retries--;
    \x7d

`restartLoop polls r status i` runs the loop with `retries = r`, current
`status`, and `i` re-inspects already performed (so the next re-inspect
reports `polls i`).  It returns the final status together with the total
number of re-inspects performed. -/
def restartLoop (polls : Nat → String) : Nat → String → Nat → String × Nat
  | 0, status, i => (status, i)
  | r + 1, status, i =>
      if status = "restarting" then restartLoop polls r (polls i) (i + 1)
      else (status, i)

/-- The switch statement of src/index.ts lines 66-104, given the observed
status from the initial inspect.  Returns the trace of engine calls issued
and, for the default branch, the thrown unknown-status error. -/
def statusDispatch (status : String) (polls : Nat → String) :
    List EngineCall × Option String :=
  if status = "running" then
    ([EngineCall.stop, EngineCall.remove false], none)
  else if status = "paused" then
    ([EngineCall.unpause, EngineCall.stop, EngineCall.remove false], none)
  else if status = "restarting" then
    let fin := restartLoop polls 5 status 0
    (List.replicate fin.2 EngineCall.inspect
      ++ (if fin.1 = "running" then [EngineCall.stop] else [])
      ++ [EngineCall.remove false], none)
  else if status = "exited" then
    ([EngineCall.remove false], none)
  else if status = "created" then
    ([EngineCall.remove false], none)
  else if status = "dead" then
    ([EngineCall.remove true], none)
  else if status = "removing" then
    ([], none)
  else
    ([], some ("Unknown container status: " ++ status))

/-- The DELETE /container/:id handler of src/index.ts lines 58-110.
Inputs: the container id from the route, the result of the initial
`container.inspect()` (an error, or the inspected data), and the status
stream reported by re-inspects in the restarting poll loop.  Output: the
trace of engine calls issued after the initial inspect, and the HTTP
response — `Except.error e` for the 500 path (inspect failure or the
thrown unknown-status error), `Except.ok message` for the 200 path. -/
def deleteContainer (containerId : String) (inspectResult : Except String InspectData)
    (polls : Nat → String) : List EngineCall × Except String String :=
  match inspectResult with
  | Except.error e => ([], Except.error e)
  | Except.ok data =>
    match statusDispatch data.State.Status polls with
    | (calls, some e) => (calls, Except.error e)
    | (calls, none) =>
        (calls, Except.ok ("Container " ++ data.Name ++ " whose conainer id is "
          ++ containerId ++ " deleted"))

/-- The trace of engine calls the deletion handler issues. -/
def deleteCalls (containerId : String) (inspectResult : Except String InspectData)
    (polls : Nat → String) : List EngineCall :=
  (deleteContainer containerId inspectResult polls).1

/-- A dockerode call issued by the execution runner of src/temp.js. -/
inductive RunnerCall where
  | createContainer (image : String) : RunnerCall
  | start : RunnerCall
  | execCreate (cmd : List String) : RunnerCall
  | execStart : RunnerCall
  | inspectContainer : RunnerCall
  | stop : RunnerCall
  | remove : RunnerCall
  deriving DecidableEq, Repr

/-- An entry of the executionEnvironments table of src/temp.js lines 24-36. -/
structure ExecEnv where
  Image : String
  Cmd : List String
  deriving DecidableEq, Repr

/-- The executionEnvironments lookup of src/temp.js: language tag to image
and shell command, defined for exactly the keys of the table. -/
def executionEnvironments (language : String) : Option ExecEnv :=
  if language = "python" then some ⟨"python:3-slim", ["/bin/sh", "-c"]⟩
  else if language = "javascript" then some ⟨"node:lts-alpine", ["/bin/sh", "-c"]⟩
  else none

/-- The basic command-line sanitization of src/temp.js line 53: escape every
double quote, then every backtick. -/
def sanitizedCode (code : String) : String :=
  (code.replace "\"" "\\\"").replace "`" "\\`"

/-- The switch of src/temp.js lines 55-66 building the interpreter
invocation; its default branch throws. -/
def execCommand (language sanitized : String) : Except String String :=
  if language = "python" then Except.ok ("python -c \"" ++ sanitized ++ "\"")
  else if language = "javascript" then Except.ok ("node -e \"" ++ sanitized ++ "\"")
  else Except.error ("Execution command not defined for " ++ language)

/-- The output.trim() of src/temp.js line 129: drop whitespace characters
from both ends of the string. -/
def trimString (s : String) : String :=
  ⟨((s.data.dropWhile Char.isWhitespace).reverse.dropWhile Char.isWhitespace).reverse⟩

/-- Outcome of a runCodeInContainer run: the dockerode calls issued, the
diagnostic console messages emitted, and the value returned or the error
thrown. -/
structure RunOutcome where
  calls : List RunnerCall
  logs : List String
  result : Except String String
  deriving Repr

/-- The runCodeInContainer function of src/temp.js lines 45-154.  The engine
side of the run is a parameter: `chunks` are the output chunks the demuxed
exec stream delivers to the capture stream (in order), `exitCode` is the
exit code exec.inspect reports, and `stillRunning` tells whether the cleanup
phase's inspect reports the container as still running (in which case it is
stopped before being removed).  Engine calls are modelled as succeeding, the
regime the output and sequencing claims speak about. -/
def runCodeInContainer (language code : String) (chunks : List String)
    (exitCode : Int) (stillRunning : Bool) : RunOutcome :=
  match executionEnvironments language with
  | none => ⟨[], [], Except.error ("Unsupported language environment: " ++ language)⟩
  | some env =>
    match execCommand language (sanitizedCode code) with
    | Except.error e => ⟨[], [], Except.error e⟩
    | Except.ok execCmd =>
      let command := env.Cmd ++ [execCmd]
      let output := String.join chunks
      let logs :=
        if exitCode ≠ 0 then
          ["[ERROR] Code execution failed with exit code: " ++ toString exitCode]
        else []
      ⟨[RunnerCall.createContainer env.Image, RunnerCall.start,
          RunnerCall.execCreate command, RunnerCall.execStart,
          RunnerCall.inspectContainer]
          ++ (if stillRunning then [RunnerCall.stop] else [])
          ++ [RunnerCall.remove],
        logs, Except.ok (trimString output)⟩

/-! Helper lemmas about the restarting poll loop. -/

theorem restartLoop_of_ne (polls : Nat → String) (r i : Nat) (status : String)
    (h : ¬ status = "restarting") : restartLoop polls r status i = (status, i) := by
  cases r <;> simp [restartLoop, h]

theorem restartLoop_snd_le (polls : Nat → String) :
    ∀ (r : Nat) (status : String) (i : Nat), (restartLoop polls r status i).2 ≤ i + r := by
  intro r
  induction r with
  | zero => intro status i; simp [restartLoop]
  | succ r ih =>
    intro status i
    by_cases h : status = "restarting"
    · rw [restartLoop, if_pos h]
      have := ih (polls i) (i + 1)
      omega
    · rw [restartLoop, if_neg h]
      omega

theorem restartLoop_stuck (polls : Nat → String) (h : ∀ j, polls j = "restarting") :
    ∀ (r i : Nat), restartLoop polls r "restarting" i = ("restarting", i + r) := by
  intro r
  induction r with
  | zero => intro i; simp [restartLoop]
  | succ r ih =>
    intro i
    rw [restartLoop, if_pos rfl, h i, ih (i + 1)]
    have e : i + 1 + r = i + (r + 1) := by omega
    rw [e]

theorem restartLoop_exit (polls : Nat → String) :
    ∀ (n r k : Nat), n < r → (∀ j, j < n → polls (k + j) = "restarting") →
      ¬ polls (k + n) = "restarting" →
      restartLoop polls r "restarting" k = (polls (k + n), k + n + 1) := by
  intro n
  induction n with
  | zero =>
    intro r k hr _ hstop
    obtain ⟨r', rfl⟩ : ∃ r', r = r' + 1 := ⟨r - 1, by omega⟩
    rw [restartLoop, if_pos rfl,
      restartLoop_of_ne polls r' (k + 1) (polls k) (by simpa using hstop)]
    simp
  | succ n ih =>
    intro r k hr hpre hstop
    obtain ⟨r', rfl⟩ : ∃ r', r = r' + 1 := ⟨r - 1, by omega⟩
    have h0 : polls k = "restarting" := by simpa using hpre 0 (by omega)
    rw [restartLoop, if_pos rfl, h0]
    have hpre' : ∀ j, j < n → polls (k + 1 + j) = "restarting" := by
      intro j hj
      have e : k + 1 + j = k + (j + 1) := by omega
      rw [e]
      exact hpre (j + 1) (by omega)
    have hstop' : ¬ polls (k + 1 + n) = "restarting" := by
      have e : k + 1 + n = k + (n + 1) := by omega
      rw [e]
      exact hstop
    rw [ih r' (k + 1) (by omega) hpre' hstop']
    have e : k + 1 + n = k + (n + 1) := by omega
    rw [e]

theorem deleteCalls_restarting (containerId name : String) (polls : Nat → String) :
    deleteCalls containerId (Except.ok ⟨name, ⟨"restarting"⟩⟩) polls
      = List.replicate (restartLoop polls 5 "restarting" 0).2 EngineCall.inspect
        ++ (if (restartLoop polls 5 "restarting" 0).1 = "running"
            then [EngineCall.stop] else [])
        ++ [EngineCall.remove false] := by
  rfl

/-- C1: For a container whose initially observed status is "restarting", the
deletion reconciler re-reads the status at most 5 times while it remains
"restarting" (the trace contains at most 5 inspect calls); if the observed
status becomes "running" within the retry budget (the first non-"restarting"
poll result is "running"), it calls stop, immediately before remove; and in
every case the trace contains the remove call. -/
theorem restarting_reconciler_spec (containerId name : String) (polls : Nat → String) :
    (deleteCalls containerId (Except.ok ⟨name, ⟨"restarting"⟩⟩) polls).count
        EngineCall.inspect ≤ 5
    ∧ (∀ n, n < 5 → (∀ j, j < n → polls j = "restarting") → polls n = "running" →
        ∃ l, deleteCalls containerId (Except.ok ⟨name, ⟨"restarting"⟩⟩) polls
          = l ++ [EngineCall.stop, EngineCall.remove false])
    ∧ EngineCall.remove false
        ∈ deleteCalls containerId (Except.ok ⟨name, ⟨"restarting"⟩⟩) polls := by
  refine ⟨?_, ?_, ?_⟩
  · rw [deleteCalls_restarting]
    have hle : (restartLoop polls 5 "restarting" 0).2 ≤ 5 := restartLoop_snd_le polls 5 _ 0
    simp only [List.count_append, List.count_replicate_self]
    have h2 : ([EngineCall.remove false]).count EngineCall.inspect = 0 := rfl
    have h1 : (if (restartLoop polls 5 "restarting" 0).1 = "running"
        then [EngineCall.stop] else []).count EngineCall.inspect = 0 := by
      split <;> rfl
    omega
  · intro n hn hpre hrun
    have hexit : restartLoop polls 5 "restarting" 0 = (polls n, n + 1) := by
      have := restartLoop_exit polls n 5 0 hn (by simpa using hpre)
        (by simp [hrun])
      simpa using this
    refine ⟨List.replicate (n + 1) EngineCall.inspect, ?_⟩
    rw [deleteCalls_restarting, hexit]
    simp [hrun]
  · rw [deleteCalls_restarting]
    simp

/-- C2: For a container stuck in "restarting" (every poll again reports
"restarting"), the poll loop performs exactly 5 re-inspects — the retry
counter starts at 5 and is decremented on every iteration — and the
reconciler then calls remove: the trace is five inspect calls followed by a
single remove. -/
theorem restarting_stuck_five_polls (containerId name : String) (polls : Nat → String)
    (h : ∀ i, polls i = "restarting") :
    deleteCalls containerId (Except.ok ⟨name, ⟨"restarting"⟩⟩) polls
      = List.replicate 5 EngineCall.inspect ++ [EngineCall.remove false] := by
  rw [deleteCalls_restarting, restartLoop_stuck polls h 5 0]
  simp

/-- Witness for C2 at a concrete stuck poll stream. -/
theorem restarting_stuck_five_polls_witness :
    deleteCalls "c1" (Except.ok ⟨"/c1", ⟨"restarting"⟩⟩) (fun _ => "restarting")
      = List.replicate 5 EngineCall.inspect ++ [EngineCall.remove false] :=
  restarting_stuck_five_polls "c1" "/c1" (fun _ => "restarting") (fun _ => rfl)

/-- C3: For a container observed in status "paused", the handler issues
exactly unpause, then stop, then remove (non-forced), no other engine call
after the initial inspect, and responds with the success message. -/
theorem paused_call_sequence (containerId name : String) (polls : Nat → String) :
    deleteContainer containerId (Except.ok ⟨name, ⟨"paused"⟩⟩) polls
      = ([EngineCall.unpause, EngineCall.stop, EngineCall.remove false],
         Except.ok ("Container " ++ name ++ " whose conainer id is "
           ++ containerId ++ " deleted")) := by
  rfl

/-- C4: For a container observed in status "exited", "created" or "dead",
the handler's trace is a single remove call — forced exactly when the
status is "dead" — and contains no stop and no unpause. -/
theorem terminal_status_single_remove (containerId name st : String) (polls : Nat → String)
    (h : st = "exited" ∨ st = "created" ∨ st = "dead") :
    deleteCalls containerId (Except.ok ⟨name, ⟨st⟩⟩) polls
      = [EngineCall.remove (st == "dead")] := by
  rcases h with rfl | rfl | rfl <;> rfl

/-- Witness for C4 at status "dead": a single forced remove. -/
theorem terminal_status_single_remove_witness :
    deleteCalls "c4" (Except.ok ⟨"/c4", ⟨"dead"⟩⟩) (fun _ => "dead")
      = [EngineCall.remove true] :=
  terminal_status_single_remove "c4" "/c4" "dead" (fun _ => "dead")
    (Or.inr (Or.inr rfl))

/-- C5: For a container whose observed status is none of the recognized
values, the handler throws the unknown-status error and the trace is empty:
no stop, unpause or remove is issued. -/
theorem unknown_status_no_action (containerId name st : String) (polls : Nat → String)
    (h : st ∉ ["running", "paused", "restarting", "exited", "created", "dead",
      "removing"]) :
    deleteContainer containerId (Except.ok ⟨name, ⟨st⟩⟩) polls
      = ([], Except.error ("Unknown container status: " ++ st)) := by
  simp only [List.mem_cons, List.not_mem_nil, or_false, not_or] at h
  obtain ⟨h1, h2, h3, h4, h5, h6, h7⟩ := h
  simp [deleteContainer, statusDispatch, h1, h2, h3, h4, h5, h6, h7]

/-- Witness for C5 at the unrecognized status "frozen". -/
theorem unknown_status_no_action_witness :
    deleteContainer "c5" (Except.ok ⟨"/c5", ⟨"frozen"⟩⟩) (fun _ => "frozen")
      = ([], Except.error ("Unknown container status: " ++ "frozen")) :=
  unknown_status_no_action "c5" "/c5" "frozen" (fun _ => "frozen") (by decide)

/-- C6: If the initial inspect fails, the handler responds with that error
and issues no engine call at all. -/
theorem inspect_failure_no_action (containerId e : String) (polls : Nat → String) :
    deleteContainer containerId (Except.error e) polls = ([], Except.error e) := by
  rfl

/-- C7: For a container observed in status "removing", the handler issues no
engine call after the initial inspect and responds with the success
confirmation referencing the container's name and identifier. -/
theorem removing_noop_success (containerId name : String) (polls : Nat → String) :
    deleteContainer containerId (Except.ok ⟨name, ⟨"removing"⟩⟩) polls
      = ([], Except.ok ("Container " ++ name ++ " whose conainer id is "
          ++ containerId ++ " deleted")) := by
  rfl

/-- C8: In the "restarting" branch, after the poll loop ends, stop is issued
exactly when the final observed status is "running": in that case the
post-loop calls are stop then a non-forced remove, and for every other
final status — "paused" and "dead" included — the only post-loop call is a
plain non-forced remove, with no unpause and no force flag. -/
theorem restarting_final_status_dispatch (containerId name : String) (polls : Nat → String) :
    ((restartLoop polls 5 "restarting" 0).1 = "running" →
      deleteCalls containerId (Except.ok ⟨name, ⟨"restarting"⟩⟩) polls
        = List.replicate (restartLoop polls 5 "restarting" 0).2 EngineCall.inspect
          ++ [EngineCall.stop, EngineCall.remove false])
    ∧ (¬ (restartLoop polls 5 "restarting" 0).1 = "running" →
      deleteCalls containerId (Except.ok ⟨name, ⟨"restarting"⟩⟩) polls
        = List.replicate (restartLoop polls 5 "restarting" 0).2 EngineCall.inspect
          ++ [EngineCall.remove false]) := by
  constructor <;> intro h <;> rw [deleteCalls_restarting] <;> simp [h]

/-- Witness for C8: a container that leaves "restarting" for "paused" on the
first poll gets one re-inspect and then a plain non-forced remove. -/
theorem restarting_final_status_dispatch_witness :
    deleteCalls "c8" (Except.ok ⟨"/c8", ⟨"restarting"⟩⟩) (fun _ => "paused")
      = [EngineCall.inspect, EngineCall.remove false] :=
  (restarting_final_status_dispatch "c8" "/c8" (fun _ => "paused")).2 (by decide)

/-- Witness for C1: a container whose very first poll reports "running"
gets stop immediately before remove. -/
theorem restarting_reconciler_spec_witness :
    ∃ l, deleteCalls "c9" (Except.ok ⟨"/c9", ⟨"restarting"⟩⟩) (fun _ => "running")
      = l ++ [EngineCall.stop, EngineCall.remove false] :=
  (restarting_reconciler_spec "c9" "/c9" (fun _ => "running")).2.1 0 (by omega)
    (fun j hj => absurd hj (by omega)) rfl

/-- C9: For an unsupported language tag, the execution runner throws the
unsupported-language error with an empty call trace: in particular no
createContainer call is issued. -/
theorem unsupported_language_no_create (language code : String) (chunks : List String)
    (exitCode : Int) (stillRunning : Bool)
    (h1 : ¬ language = "python") (h2 : ¬ language = "javascript") :
    runCodeInContainer language code chunks exitCode stillRunning
      = ⟨[], [], Except.error ("Unsupported language environment: " ++ language)⟩ := by
  have henv : executionEnvironments language = none := by
    simp [executionEnvironments, h1, h2]
  simp [runCodeInContainer, henv]

/-- Witness for C9 at the unsupported tag "ruby". -/
theorem unsupported_language_no_create_witness :
    runCodeInContainer "ruby" "puts 1" [] 0 false
      = ⟨[], [], Except.error ("Unsupported language environment: " ++ "ruby")⟩ :=
  unsupported_language_no_create "ruby" "puts 1" [] 0 false (by decide) (by decide)

/-- C10: The execution runner's returned value does not depend on the exec
exit code — the exit code only selects diagnostic log lines — and for a
supported language the returned value is the trimmed concatenation of the
captured output chunks. -/
theorem output_independent_of_exit_code (language code : String) (chunks : List String)
    (e1 e2 : Int) (stillRunning : Bool) :
    ((runCodeInContainer language code chunks e1 stillRunning).result
      = (runCodeInContainer language code chunks e2 stillRunning).result)
    ∧ ((executionEnvironments language).isSome = true →
        (runCodeInContainer language code chunks e1 stillRunning).result
          = Except.ok (trimString (String.join chunks))) := by
  by_cases hp : language = "python"
  · subst hp
    exact ⟨rfl, fun _ => rfl⟩
  · by_cases hj : language = "javascript"
    · subst hj
      exact ⟨rfl, fun _ => rfl⟩
    · have henv : executionEnvironments language = none := by
        simp [executionEnvironments, hp, hj]
      constructor
      · simp [runCodeInContainer, henv]
      · intro hs
        rw [henv] at hs
        simp at hs

/-- Witness for C10: running python code print(1+1) with captured chunk
"2" followed by a newline and a non-zero exit code still returns "2". -/
theorem output_independent_of_exit_code_witness :
    (runCodeInContainer "python" "print(1+1)" ["2\n"] 1 false).result
      = Except.ok "2" :=
  (output_independent_of_exit_code "python" "print(1+1)" ["2\n"] 1 0 false).2 rfl

end DockerOrchestrator
